import Mathlib

/-!
Verification development for the base-go-app durable task worker.

The definitions below are a shallow embedding of the Go source:
  - internal/tasks          (TaskPayload envelope, registry handlers, Dispatch, notify)
  - internal/queue          (the worker-pool delivery branch of StartConsumer)
  - internal/publisher      (SendCeleryTask, SendGoTask)
  - internal/webhook        (OAuthClient.Send)
  - internal/tasks/logger_task (processLoggerPayload, normalizeToMap)

JSON values are modelled by an inductive `Json`; Go `int` fields are `Int`;
Go errors are `Option String` / `Except String`; external collaborators
(broker channel, HTTP responses, database) are oracle parameters.
-/

/-- JSON values (numbers restricted to integers, which covers every value
the claims exercise). -/
inductive Json where
  | null
  | bool (b : Bool)
  | num (n : Int)
  | str (s : String)
  | arr (xs : List Json)
  | obj (fields : List (String × Json))

/-- Association-list lookup on a decoded JSON object, as the Go decoder
selects struct fields by tag. -/
def jLookup (fields : List (String × Json)) (key : String) : Option Json :=
  fields.lookup key

/-- Decode a string struct field: absent or JSON null leaves the Go zero
value "", a JSON string is taken, any other shape is a type error. -/
def getStringField (fields : List (String × Json)) (key : String) : Except String String :=
  match jLookup fields key with
  | none => Except.ok ""
  | some Json.null => Except.ok ""
  | some (Json.str s) => Except.ok s
  | some _ => Except.error ("json: cannot unmarshal value into field " ++ key ++ " of type string")

/-- Decode an int struct field: absent or null leaves 0, a number is taken,
anything else is a type error. -/
def getIntField (fields : List (String × Json)) (key : String) : Except String Int :=
  match jLookup fields key with
  | none => Except.ok 0
  | some Json.null => Except.ok 0
  | some (Json.num n) => Except.ok n
  | some _ => Except.error ("json: cannot unmarshal value into field " ++ key ++ " of type int")

/-- Decode a bool struct field: absent or null leaves false. -/
def getBoolField (fields : List (String × Json)) (key : String) : Except String Bool :=
  match jLookup fields key with
  | none => Except.ok false
  | some Json.null => Except.ok false
  | some (Json.bool b) => Except.ok b
  | some _ => Except.error ("json: cannot unmarshal value into field " ++ key ++ " of type bool")

/-- Decode a json.RawMessage field: the raw value is stored verbatim;
an absent field leaves the nil raw message (modelled as null). -/
def getRawField (fields : List (String × Json)) (key : String) : Json :=
  (jLookup fields key).getD Json.null

/-- SockudoConfig from internal/tasks (broadcast notification spec). -/
structure SockudoConfig where
  channel : String
  event : String
  includePayload : Bool

/-- WebhookConfig from internal/tasks (webhook notification spec). -/
structure WebhookConfig where
  url : String
  oauthClientID : String
  oauthScope : String

/-- NotifyConfig from internal/tasks. -/
structure NotifyConfig where
  sockudo : Option SockudoConfig
  webhook : Option WebhookConfig

/-- TaskPayload: the native task envelope from internal/tasks. -/
structure TaskPayload where
  version : String
  id : String
  task : String
  payload : Json
  createdAt : String
  attempt : Int
  maxAttempts : Int
  timeoutSeconds : Int
  idempotencyKey : String
  meta : Json
  notify : Option NotifyConfig

/-- The Go zero value of TaskPayload (what json.Unmarshal leaves on a null
input or for absent fields). -/
def TaskPayload.zero : TaskPayload :=
  { version := "", id := "", task := "", payload := Json.null, createdAt := ""
  , attempt := 0, maxAttempts := 0, timeoutSeconds := 0, idempotencyKey := ""
  , meta := Json.null, notify := none }

/-- Decode a SockudoConfig object. -/
def decodeSockudoConfig (f : List (String × Json)) : Except String SockudoConfig := do
  let channel ← getStringField f "channel"
  let event ← getStringField f "event"
  let includePayload ← getBoolField f "include_payload"
  Except.ok { channel := channel, event := event, includePayload := includePayload }

/-- Decode a WebhookConfig object. -/
def decodeWebhookConfig (f : List (String × Json)) : Except String WebhookConfig := do
  let url ← getStringField f "url"
  let cid ← getStringField f "oauth_client_id"
  let scope ← getStringField f "oauth_scope"
  Except.ok { url := url, oauthClientID := cid, oauthScope := scope }

/-- Decode an optional pointer-to-struct field: absent or null is nil,
an object decodes, anything else is a type error. -/
def getOptStructField (f : List (String × Json)) (key : String)
    (dec : List (String × Json) → Except String α) : Except String (Option α) :=
  match jLookup f key with
  | none => Except.ok none
  | some Json.null => Except.ok none
  | some (Json.obj g) => (dec g).map some
  | some _ => Except.error ("json: cannot unmarshal value into field " ++ key ++ " of type struct")

/-- Decode a NotifyConfig object. -/
def decodeNotifyConfig (f : List (String × Json)) : Except String NotifyConfig := do
  let sockudo ← getOptStructField f "sockudo" decodeSockudoConfig
  let webhook ← getOptStructField f "webhook" decodeWebhookConfig
  Except.ok { sockudo := sockudo, webhook := webhook }

/-- json.Unmarshal of a delivery body into a TaskPayload, as performed at
the top of Dispatch (dispatcher.go): only a JSON object (or null, which
the Go decoder accepts as a no-op) parses; any other shape — in particular a
Celery-style array — is an unmarshal error. -/
def unmarshalTaskPayload (j : Json) : Except String TaskPayload :=
  match j with
  | Json.null => Except.ok TaskPayload.zero
  | Json.obj f => do
      let version ← getStringField f "version"
      let id ← getStringField f "id"
      let task ← getStringField f "task"
      let createdAt ← getStringField f "created_at"
      let attempt ← getIntField f "attempt"
      let maxAttempts ← getIntField f "max_attempts"
      let timeoutSeconds ← getIntField f "timeout_seconds"
      let idempotencyKey ← getStringField f "idempotency_key"
      let notify ← getOptStructField f "notify" decodeNotifyConfig
      Except.ok { version := version, id := id, task := task
                , payload := getRawField f "payload", createdAt := createdAt
                , attempt := attempt, maxAttempts := maxAttempts
                , timeoutSeconds := timeoutSeconds, idempotencyKey := idempotencyKey
                , meta := getRawField f "meta", notify := notify }
  | _ => Except.error "json: cannot unmarshal value into Go value of type tasks.TaskPayload"


/-- Go contexts, as a derivation tree: `background` is context.Background();
`withTimeout parent seconds` is context.WithTimeout(parent, seconds);
`withCancel parent id` is a cancellable context such as the worker shutdown
context created in cmd/worker/main.go. -/
inductive Ctx where
  | background
  | withTimeout (parent : Ctx) (seconds : Int)
  | withCancel (parent : Ctx) (id : Nat)
deriving DecidableEq

/-- The chain of contexts whose cancellation reaches `c`: `c` itself and
everything it was derived from. -/
def Ctx.chain : Ctx → List Ctx
  | Ctx.background => [Ctx.background]
  | Ctx.withTimeout p s => Ctx.withTimeout p s :: p.chain
  | Ctx.withCancel p i => Ctx.withCancel p i :: p.chain

/-- Cancelling `killed` suppresses work running on `c` exactly when `killed`
is on the derivation chain of `c`. -/
def cancelledBy (c killed : Ctx) : Prop := killed ∈ c.chain

instance (c killed : Ctx) : Decidable (cancelledBy c killed) := by
  unfold cancelledBy; infer_instance

/-- A task handler (internal/tasks TaskHandler.Handle): given a context and
the raw payload JSON it returns nil on success or an error message. -/
abbrev Handler := Ctx → Json → Option String

/-- The handler registry (internal/tasks/registry.go LookupTask view):
a name-to-handler partial map. -/
abbrev Registry := String → Option Handler

/-- The outcome of Dispatch (dispatcher.go DispatchResult). -/
structure DispatchResult where
  success : Bool
  retry : Bool
  retryAttempt : Int
  errmsg : Option String
deriving DecidableEq

/-- A fire-and-forget notification sink invocation launched by notify
(dispatcher.go): either a Broadcaster.Broadcast call or a
WebhookClient.Send call, each on its own context. -/
inductive SinkCall where
  | broadcast (ctx : Ctx) (channel event : String) (payload : List (String × Json))
  | webhook (ctx : Ctx) (url : String) (payload : List (String × Json)) (clientID scope : String)

/-- The context a sink call runs on. -/
def SinkCall.ctxOf : SinkCall → Ctx
  | SinkCall.broadcast c _ _ _ => c
  | SinkCall.webhook c _ _ _ _ => c

/-- The notification payload a sink call carries. -/
def SinkCall.payloadOf : SinkCall → List (String × Json)
  | SinkCall.broadcast _ _ _ p => p
  | SinkCall.webhook _ _ p _ _ => p

/-- notify (dispatcher.go): builds the notification payload and launches one
goroutine per configured sink; each goroutine derives its context as
context.WithTimeout(context.Background(), 10*time.Second). The task context
is accepted but never used to derive the sink contexts. Returns the list of
launched sink calls. -/
def notifySinkCalls (_taskCtx : Ctx) (envelope : TaskPayload) (status : String)
    (err : Option String) (now : String) : List SinkCall :=
  match envelope.notify with
  | none => []
  | some cfg =>
    let notifyPayload : List (String × Json) :=
      [ ("id", Json.str envelope.id)
      , ("task", Json.str envelope.task)
      , ("status", Json.str status)
      , ("attempt", Json.num envelope.attempt)
      , ("created_at", Json.str envelope.createdAt)
      , ("finished_at", Json.str now) ]
      ++ (match err with
          | some e => [("error", Json.str e)]
          | none => [])
    (match cfg.sockudo with
     | some s => [SinkCall.broadcast (Ctx.withTimeout Ctx.background 10) s.channel s.event notifyPayload]
     | none => [])
    ++ (match cfg.webhook with
        | some w => [SinkCall.webhook (Ctx.withTimeout Ctx.background 10) w.url notifyPayload w.oauthClientID w.oauthScope]
        | none => [])

/-- The max_attempts default applied by Dispatch: if ≤ 0, set to 5
(DefaultMaxAttempts). -/
def normalizeMaxAttempts (envelope : TaskPayload) : TaskPayload :=
  if envelope.maxAttempts ≤ 0 then { envelope with maxAttempts := 5 } else envelope

/-- The task context derived by Dispatch: a child with the per-task deadline
when timeout_seconds > 0, otherwise the parent context itself. -/
def taskCtxOf (ctx : Ctx) (envelope : TaskPayload) : Ctx :=
  if envelope.timeoutSeconds > 0 then Ctx.withTimeout ctx envelope.timeoutSeconds else ctx

/-- Dispatch after a successful envelope parse (dispatcher.go lines 57-105):
handler lookup, max_attempts default, task context, handler invocation,
retry decision, completion notifications. Returns the DispatchResult and
the sink calls launched by notify. -/
def dispatchDecoded (reg : Registry) (ctx : Ctx) (now : String) (envelope0 : TaskPayload) :
    DispatchResult × List SinkCall :=
  match reg envelope0.task with
  | none =>
      ({ success := false, retry := false, retryAttempt := 0
       , errmsg := some ("unknown task: " ++ envelope0.task) }, [])
  | some handler =>
      let envelope := normalizeMaxAttempts envelope0
      let taskCtx := taskCtxOf ctx envelope
      match handler taskCtx envelope.payload with
      | some err =>
          if envelope.attempt < envelope.maxAttempts - 1 then
            ({ success := false, retry := true, retryAttempt := envelope.attempt + 1
             , errmsg := some err }, [])
          else
            ({ success := false, retry := false, retryAttempt := 0, errmsg := some err }
            , notifySinkCalls ctx envelope "error" (some err) now)
      | none =>
          ({ success := true, retry := false, retryAttempt := 0, errmsg := none }
          , notifySinkCalls ctx envelope "success" none now)

/-- Dispatch (dispatcher.go): parse the envelope — a parse failure is a
poison message and returns a terminal failure — then process it. -/
def Dispatch (reg : Registry) (ctx : Ctx) (now : String) (body : Json) :
    DispatchResult × List SinkCall :=
  match unmarshalTaskPayload body with
  | Except.error e =>
      ({ success := false, retry := false, retryAttempt := 0, errmsg := some e }, [])
  | Except.ok envelope => dispatchDecoded reg ctx now envelope

/-- Running the launched sink goroutines: each sink outcome comes from the
oracle `sinkErr`; a failure is only logged ("Failed to broadcast" /
"Failed to send webhook"), never returned. -/
def runSinkCalls (calls : List SinkCall) (sinkErr : SinkCall → Option String) : List String :=
  calls.filterMap fun c =>
    (sinkErr c).map fun e =>
      match c with
      | SinkCall.broadcast _ _ _ _ => "Failed to broadcast to Sockudo: " ++ e
      | SinkCall.webhook _ _ _ _ _ => "Failed to send webhook: " ++ e

/-- The dispatch pipeline including the fire-and-forget execution of the
notification sinks: the verdict is produced by Dispatch, the sink outcomes
only produce log lines. -/
def dispatchRun (reg : Registry) (ctx : Ctx) (now : String) (body : Json)
    (sinkErr : SinkCall → Option String) : DispatchResult × List String :=
  let r := Dispatch reg ctx now body
  (r.fst, runSinkCalls r.snd sinkErr)

/-- A broker delivery as seen by a pool worker (amqp.Delivery fields the
worker reads). -/
structure Delivery where
  exchange : String
  routingKey : String
  body : Json

/-- A broker operation performed by a pool worker on a delivery. -/
inductive BrokerAction where
  | ack
  | nackNoRequeue
  | publishRetry (exchange routingKey : String) (newEnvelope : TaskPayload) (xDelayMs : Int)

/-- Whether a broker action is an acknowledgement (positive or negative). -/
def BrokerAction.isAckAction : BrokerAction → Bool
  | BrokerAction.ack => true
  | BrokerAction.nackNoRequeue => true
  | BrokerAction.publishRetry _ _ _ _ => false

/-- Two-complement wrap-around of 64-bit Go `int` arithmetic: the value a
Go int expression holds after overflow. -/
def goInt64 (n : Int) : Int :=
  (n + 2 ^ 63) % 2 ^ 64 - 2 ^ 63

/-- The retry backoff header value computed in the worker (consumer.go
line 102): backoffMs := int64(1000 * (1 << (payload.Attempt - 1))),
evaluated in 64-bit Go int arithmetic. A shift count of 64 or more shifts
every bit out, and the multiplication wraps on overflow — both captured by
goInt64. A negative shift count (attempt ≤ 0) is a Go runtime panic,
modelled as none. -/
def retryBackoffMs (attempt : Int) : Option Int :=
  if attempt - 1 < 0 then none
  else some (goInt64 (1000 * goInt64 (2 ^ (attempt - 1).toNat)))

/-- The worker-pool branch on one delivery (consumer.go lines 89-134):
dispatch verdict `res` in hand, the worker acks on success; on a retry
verdict it re-parses the body, bumps attempt to RetryAttempt, computes the
backoff header, and — when the shared channel is available — republishes to
the original exchange and routing key with the x-delay header, acking on
publish success and nacking without requeue on publish failure; every other
path nacks without requeue. `chanAvailable` models `currentCh != nil` and
`publishOk` the outcome of Channel.Publish. Returns `some` of the broker
operations performed in order, or `none` when the backoff computation
panics (negative shift for retryAttempt ≤ 0): the goroutine dies before
any broker operation, so no acknowledgement happens at all. -/
def handleDelivery (res : DispatchResult) (d : Delivery)
    (chanAvailable : Bool) (publishOk : Bool) : Option (List BrokerAction) :=
  if res.success then some [BrokerAction.ack]
  else if res.retry then
    match unmarshalTaskPayload d.body with
    | Except.ok payload0 =>
        let payload := { payload0 with attempt := res.retryAttempt }
        match retryBackoffMs payload.attempt with
        | none => none
        | some backoffMs =>
          if chanAvailable then
            if publishOk then
              some [BrokerAction.publishRetry d.exchange d.routingKey payload backoffMs, BrokerAction.ack]
            else
              some [BrokerAction.publishRetry d.exchange d.routingKey payload backoffMs, BrokerAction.nackNoRequeue]
          else some [BrokerAction.nackNoRequeue]
    | Except.error _ => some [BrokerAction.nackNoRequeue]
  else some [BrokerAction.nackNoRequeue]

/-- TaskOptions (internal/publisher): optional overrides for SendGoTask. -/
structure TaskOptions where
  timeoutSeconds : Option Int
  notify : Option (List (String × String))
  maxAttempts : Option Int

/-- An AMQP message as assembled by the publisher (amqp.Publishing fields
the publisher sets; deliveryMode 2 is amqp.Persistent). -/
structure Publishing where
  contentType : String
  contentEncoding : String
  deliveryMode : Nat
  body : Json
  headers : List (String × Json)
  correlationId : String

/-- A broker operation performed by the publisher. -/
inductive BrokerOp where
  | queueDeclare (name : String) (durable deleteWhenUnused exclusive : Bool)
  | publish (exchange routingKey : String) (msg : Publishing)

/-- The Celery protocol v2 body: [args, kwargs, metadata] with empty kwargs
and the fixed metadata mapping (publisher.go SendCeleryTask). -/
def celeryBody (args : List Json) : Json :=
  Json.arr
    [ Json.arr args
    , Json.obj []
    , Json.obj
        [ ("callbacks", Json.null), ("errbacks", Json.null)
        , ("chain", Json.null), ("chord", Json.null) ] ]

/-- SendCeleryTask (publisher.go): validates the task name, defaults nil
args to [] and empty queue to "celery", declares the queue durable,
publishes the Celery v2 message to exchange "celery" with routing key =
queue, and returns the generated task id. The generated UUID is the
`taskID` parameter; `declareOk`/`publishOk` are the broker outcomes.
Returns ((taskID, error), broker operations performed in order). -/
def SendCeleryTask (taskID : String) (declareOk publishOk : Bool)
    (task : String) (args : Option (List Json)) (queue : String) :
    (String × Option String) × List BrokerOp :=
  if task = "" then (("", some "task name is required"), [])
  else
    let args := args.getD []
    let queue := if queue = "" then "celery" else queue
    let declOp := BrokerOp.queueDeclare queue true false false
    if !declareOk then (("", some "failed to declare queue"), [declOp])
    else
      let msg : Publishing :=
        { contentType := "application/json"
        , contentEncoding := "utf-8"
        , deliveryMode := 2
        , body := celeryBody args
        , headers :=
            [ ("lang", Json.str "py"), ("task", Json.str task)
            , ("id", Json.str taskID), ("root_id", Json.str taskID) ]
        , correlationId := taskID }
      let pubOp := BrokerOp.publish "celery" queue msg
      if !publishOk then (("", some "failed to publish message"), [declOp, pubOp])
      else ((taskID, none), [declOp, pubOp])

/-- SendGoTask (publisher.go): validates the task name, defaults nil payload
to {} and empty queue to "celery", declares the queue durable, builds the
native envelope map (version 1.0, fresh id, created_at = now, attempt 0,
max_attempts 5 unless overridden, optional timeout_seconds and notify), and
publishes it persistently to the default exchange with the queue as routing
key. -/
def SendGoTask (taskID now : String) (declareOk publishOk : Bool)
    (task : String) (payload : Option (List (String × Json))) (queue : String)
    (options : Option TaskOptions) :
    (String × Option String) × List BrokerOp :=
  if task = "" then (("", some "task name is required"), [])
  else
    let payload := payload.getD []
    let queue := if queue = "" then "celery" else queue
    let declOp := BrokerOp.queueDeclare queue true false false
    if !declareOk then (("", some "failed to declare queue"), [declOp])
    else
      let maxAttempts : Int :=
        match options with
        | some o => o.maxAttempts.getD 5
        | none => 5
      let timeoutEntry : List (String × Json) :=
        match options with
        | some o =>
            (match o.timeoutSeconds with
             | some t => [("timeout_seconds", Json.num t)]
             | none => [])
        | none => []
      let notifyEntry : List (String × Json) :=
        match options with
        | some o =>
            (match o.notify with
             | some m => [("notify", Json.obj (m.map fun kv => (kv.fst, Json.str kv.snd)))]
             | none => [])
        | none => []
      let body := Json.obj
        ([ ("version", Json.str "1.0"), ("id", Json.str taskID)
         , ("task", Json.str task), ("payload", Json.obj payload)
         , ("created_at", Json.str now), ("attempt", Json.num 0)
         , ("max_attempts", Json.num maxAttempts) ]
         ++ timeoutEntry ++ notifyEntry)
      let msg : Publishing :=
        { contentType := "application/json"
        , contentEncoding := "utf-8"
        , deliveryMode := 2
        , body := body
        , headers := []
        , correlationId := "" }
      let pubOp := BrokerOp.publish "" queue msg
      if !publishOk then (("", some "failed to publish message"), [declOp, pubOp])
      else ((taskID, none), [declOp, pubOp])

/-- OAuthClient.Send (webhook/client.go): obtain a bearer token
(`tokenResult`, covering the cache/fetch path), marshal and POST the
payload (`postResult` is the HTTP outcome: transport error or status code);
a completed response errors exactly when StatusCode >= 400. Returns nil on
success or the error message. -/
def OAuthClient.Send (tokenResult : Except String String)
    (postResult : Except String Int) : Option String :=
  match tokenResult with
  | Except.error e => some ("failed to get token: " ++ e)
  | Except.ok _token =>
      match postResult with
      | Except.error e => some e
      | Except.ok status =>
          if status ≥ 400 then some ("webhook failed with status: " ++ toString status)
          else none

/-- LoggerTaskPayload (logger_task.go): level, context and extra are
interface{} fields and accept any JSON value. -/
structure LoggerTaskPayload where
  message : String
  channel : String
  level : Json
  levelName : String
  datetime : String
  context : Json
  extra : Json

/-- json.Unmarshal of a logger task payload (logger_task.go Handle). -/
def unmarshalLoggerPayload (j : Json) : Except String LoggerTaskPayload :=
  match j with
  | Json.null =>
      Except.ok { message := "", channel := "", level := Json.null, levelName := ""
                , datetime := "", context := Json.null, extra := Json.null }
  | Json.obj f => do
      let message ← getStringField f "message"
      let channel ← getStringField f "channel"
      let levelName ← getStringField f "level_name"
      let datetime ← getStringField f "datetime"
      Except.ok { message := message, channel := channel
                , level := getRawField f "level", levelName := levelName
                , datetime := datetime, context := getRawField f "context"
                , extra := getRawField f "extra" }
  | _ => Except.error "json: cannot unmarshal value into Go value of type tasks.LoggerTaskPayload"

/-- normalizeToMap (logger_task.go): nil yields an empty map, a JSON object
is kept as-is, an array yields an empty map, and the fallback for every
other type yields an empty map. -/
def normalizeToMap : Json → List (String × Json)
  | Json.null => []
  | Json.obj m => m
  | Json.arr _ => []
  | _ => []

/-- The level conversion in processLoggerPayload: a JSON number (float64)
is truncated to int, a decimal string is parsed with strconv.Atoi
(failure defaults to 0 with a warning), anything else defaults to 0. -/
def levelToInt : Json → Int
  | Json.num n => n
  | Json.str s => (s.toInt?).getD 0
  | _ => 0

/-- The log row assembled by processLoggerPayload before persistence
(models.ServerLog fields determined by the payload; id and timestamps come
from the clock/uuid collaborators and are omitted). -/
structure ServerLogRow where
  message : String
  channel : String
  level : Int
  levelName : String
  context : List (String × Json)
  extra : List (String × Json)

/-- The row processLoggerPayload builds from a decoded payload. -/
def buildServerLog (p : LoggerTaskPayload) : ServerLogRow :=
  { message := p.message
  , channel := p.channel
  , level := levelToInt p.level
  , levelName := p.levelName
  , context := normalizeToMap p.context
  , extra := normalizeToMap p.extra }

/-- The persistence collaborator state as seen by processLoggerPayload:
database.Connected(), database.DB != nil, and the outcome of DB.Create. -/
structure LoggerDeps where
  dbConnected : Bool
  dbPresent : Bool
  insertError : Option String

/-- processLoggerPayload (logger_task.go): builds the row; if the database
is not connected or its handle is nil it logs a skip and returns nil
without inserting; otherwise it inserts, propagating a Create error.
Returns (handler error, rows inserted). -/
def processLoggerPayload (deps : LoggerDeps) (p : LoggerTaskPayload) :
    Option String × List ServerLogRow :=
  let row := buildServerLog p
  if !deps.dbConnected || !deps.dbPresent then (none, [])
  else
    match deps.insertError with
    | some e => (some e, [])
    | none => (none, [row])

/-- The logger handler (LoggerTaskHandler.Handle): unmarshal the payload,
then process it against the persistence collaborator. -/
def loggerHandler (deps : LoggerDeps) : Handler := fun _ctx args =>
  match unmarshalLoggerPayload args with
  | Except.error e => some ("failed to unmarshal logger payload: " ++ e)
  | Except.ok p => (processLoggerPayload deps p).fst


/-! ## Concrete values used by witnesses and counterexamples -/

/-- Concrete registry used by witnesses: one task "t" whose handler always
fails with "boom". -/
def regFailing : Registry := fun n =>
  if n = "t" then some (fun _ _ => some "boom") else none

/-- Registry with one task "t" whose handler always succeeds. -/
def regSucceeding : Registry := fun n =>
  if n = "t" then some (fun _ _ => none) else none

/-- A valid native envelope body for task "t". -/
def innerEnvelopeBody : Json := Json.obj [("task", Json.str "t"), ("id", Json.str "42")]

/-- The same envelope wrapped in a Celery-style three-element sequence
(args-first shape [envelope, {}, metadata]). -/
def celeryWrappedBody : Json :=
  Json.arr
    [ innerEnvelopeBody
    , Json.obj []
    , Json.obj
        [ ("callbacks", Json.null), ("errbacks", Json.null)
        , ("chain", Json.null), ("chord", Json.null) ] ]

/-- Witness envelope for C6: a broadcast sink is configured. -/
def envNotifyW : TaskPayload :=
  { TaskPayload.zero with
    notify := some ⟨some ⟨"ch", "ev", false⟩, none⟩ }

/-- Witness sink call for C6: the broadcast launched for envNotifyW. -/
def callW : SinkCall :=
  SinkCall.broadcast (Ctx.withTimeout Ctx.background 10) "ch" "ev"
    [ ("id", Json.str ""), ("task", Json.str ""), ("status", Json.str "success")
    , ("attempt", Json.num 0), ("created_at", Json.str ""), ("finished_at", Json.str "t1") ]

/-! ## Helper lemmas -/

theorem normalizeMaxAttempts_task (env : TaskPayload) :
    (normalizeMaxAttempts env).task = env.task := by
  unfold normalizeMaxAttempts; split <;> rfl

theorem normalizeMaxAttempts_payload_eq (env : TaskPayload) :
    (normalizeMaxAttempts env).payload = env.payload := by
  unfold normalizeMaxAttempts; split <;> rfl

theorem normalizeMaxAttempts_attempt (env : TaskPayload) :
    (normalizeMaxAttempts env).attempt = env.attempt := by
  unfold normalizeMaxAttempts; split <;> rfl

theorem normalizeMaxAttempts_timeout (env : TaskPayload) :
    (normalizeMaxAttempts env).timeoutSeconds = env.timeoutSeconds := by
  unfold normalizeMaxAttempts; split <;> rfl

theorem normalizeMaxAttempts_max (env : TaskPayload) :
    (normalizeMaxAttempts env).maxAttempts =
      if env.maxAttempts ≤ 0 then 5 else env.maxAttempts := by
  unfold normalizeMaxAttempts; split <;> rfl

theorem taskCtxOf_normalize (ctx : Ctx) (env : TaskPayload) :
    taskCtxOf ctx (normalizeMaxAttempts env) = taskCtxOf ctx env := by
  unfold taskCtxOf
  rw [normalizeMaxAttempts_timeout]

theorem notifySinkCalls_status (tctx : Ctx) (env : TaskPayload) (status : String)
    (err : Option String) (now : String) :
    ∀ c ∈ notifySinkCalls tctx env status err now,
      ("status", Json.str status) ∈ c.payloadOf := by
  intro c hc
  unfold notifySinkCalls at hc
  cases henv : env.notify with
  | none => rw [henv] at hc; simp at hc
  | some cfg =>
      rw [henv] at hc
      simp only [List.mem_append] at hc
      rcases hc with hc | hc
      · cases hs : cfg.sockudo with
        | none => rw [hs] at hc; simp at hc
        | some s =>
            rw [hs] at hc
            simp only [List.mem_singleton] at hc
            subst hc
            simp [SinkCall.payloadOf]
      · cases hw : cfg.webhook with
        | none => rw [hw] at hc; simp at hc
        | some w =>
            rw [hw] at hc
            simp only [List.mem_singleton] at hc
            subst hc
            simp [SinkCall.payloadOf]

/-! ## Claims -/

/-- C1: for every well-formed envelope whose registered handler returns an
error, Dispatch returns a retry verdict with retry_attempt = attempt + 1
exactly when attempt < max_attempts - 1 (after max_attempts ≤ 0 is
normalized to 5); otherwise it returns a terminal non-retry failure and
fires the completion notifications with status "error". -/
theorem dispatch_retry_boundary (reg : Registry) (ctx : Ctx) (now : String)
    (body : Json) (env : TaskPayload) (handler : Handler) (msg : String)
    (hu : unmarshalTaskPayload body = Except.ok env)
    (hreg : reg env.task = some handler)
    (hh : handler (taskCtxOf ctx env) env.payload = some msg) :
    ((normalizeMaxAttempts env).maxAttempts = if env.maxAttempts ≤ 0 then 5 else env.maxAttempts)
    ∧ (env.attempt < (normalizeMaxAttempts env).maxAttempts - 1 →
        Dispatch reg ctx now body =
          ({ success := false, retry := true, retryAttempt := env.attempt + 1
           , errmsg := some msg }, []))
    ∧ (¬ env.attempt < (normalizeMaxAttempts env).maxAttempts - 1 →
        Dispatch reg ctx now body =
          ({ success := false, retry := false, retryAttempt := 0, errmsg := some msg }
          , notifySinkCalls ctx (normalizeMaxAttempts env) "error" (some msg) now)
        ∧ ∀ c ∈ (Dispatch reg ctx now body).snd,
            ("status", Json.str "error") ∈ c.payloadOf) := by
  have hstep : Dispatch reg ctx now body = dispatchDecoded reg ctx now env := by
    unfold Dispatch; rw [hu]
  have hdec : dispatchDecoded reg ctx now env =
      if env.attempt < (normalizeMaxAttempts env).maxAttempts - 1 then
        ({ success := false, retry := true, retryAttempt := env.attempt + 1
         , errmsg := some msg }, [])
      else
        ({ success := false, retry := false, retryAttempt := 0, errmsg := some msg }
        , notifySinkCalls ctx (normalizeMaxAttempts env) "error" (some msg) now) := by
    unfold dispatchDecoded
    rw [hreg]
    dsimp only
    rw [taskCtxOf_normalize, normalizeMaxAttempts_payload_eq, hh]
    dsimp only
    rw [normalizeMaxAttempts_attempt]
  refine ⟨normalizeMaxAttempts_max env, ?_, ?_⟩
  · intro hlt
    rw [hstep, hdec, if_pos hlt]
  · intro hge
    have hdisp : Dispatch reg ctx now body =
        ({ success := false, retry := false, retryAttempt := 0, errmsg := some msg }
        , notifySinkCalls ctx (normalizeMaxAttempts env) "error" (some msg) now) := by
      rw [hstep, hdec, if_neg hge]
    refine ⟨hdisp, ?_⟩
    rw [hdisp]
    exact notifySinkCalls_status ctx (normalizeMaxAttempts env) "error" (some msg) now

/-- Witness for C1: the envelope {task: "t"} (attempt 0, max_attempts
defaulted to 5) gets a retry verdict with retry_attempt 1. -/
theorem dispatch_retry_boundary_witness :
    Dispatch regFailing Ctx.background "2023-01-01T00:00:00Z" (Json.obj [("task", Json.str "t")]) =
      ({ success := false, retry := true, retryAttempt := 1, errmsg := some "boom" }, []) := by
  have h := dispatch_retry_boundary regFailing Ctx.background "2023-01-01T00:00:00Z"
      (Json.obj [("task", Json.str "t")]) { TaskPayload.zero with task := "t" }
      (fun _ _ => some "boom") "boom" rfl rfl rfl
  exact h.2.1 (by decide)

/-- goInt64 is the identity on values already in the 64-bit signed range. -/
theorem goInt64_eq_self (x : Int) (h1 : -(2 ^ 63) ≤ x) (h2 : x < 2 ^ 63) :
    goInt64 x = x := by
  unfold goInt64
  have hlo : (0 : Int) ≤ x + 2 ^ 63 := by omega
  have hhi : x + 2 ^ 63 < 2 ^ 64 := by
    have : (2 : Int) ^ 64 = 2 ^ 63 + 2 ^ 63 := by norm_num
    omega
  rw [Int.emod_eq_of_lt hlo hhi]
  omega

/-- retryBackoffMs panics (none) exactly for attempt ≤ 0, where the Go
shift count is negative. -/
theorem retryBackoffMs_eq_none_iff (a : Int) : retryBackoffMs a = none ↔ a ≤ 0 := by
  unfold retryBackoffMs
  split
  · rename_i h
    simp only [true_iff]
    omega
  · rename_i h
    simp only [reduceCtorEq, false_iff]
    omega

/-- In the non-overflowing range 1 ≤ attempt ≤ 54, retryBackoffMs computes
the mathematical value 1000 * 2^(attempt - 1). -/
theorem retryBackoffMs_in_range (n : Int) (h1 : 1 ≤ n) (h54 : n ≤ 54) :
    retryBackoffMs n = some (1000 * 2 ^ (n - 1).toNat) := by
  unfold retryBackoffMs
  rw [if_neg (by omega)]
  have hk : (n - 1).toNat ≤ 53 := by omega
  have hp : (2 : Int) ^ (n - 1).toNat ≤ 2 ^ 53 := by
    exact pow_le_pow_right₀ (by norm_num) hk
  have hpos : (0 : Int) ≤ 2 ^ (n - 1).toNat := by positivity
  have hpos2 : (0 : Int) ≤ 1000 * 2 ^ (n - 1).toNat := by positivity
  rw [goInt64_eq_self (2 ^ (n - 1).toNat) (by linarith)
        (lt_of_le_of_lt hp (by norm_num))]
  rw [goInt64_eq_self (1000 * 2 ^ (n - 1).toNat) (by linarith)
        (lt_of_le_of_lt (by linarith) (by norm_num : (1000 : Int) * 2 ^ 53 < 2 ^ 63))]

/-- Counterexample for C2: a delivery carrying attempt = -1 whose handler
fails yields a retry verdict with retry_attempt = 0; on it the worker
computes 1 << (0 - 1), a negative-shift runtime panic that kills the
goroutine before any broker operation — zero acknowledgements, refuting
"never zero". -/
theorem worker_zero_acks_on_negative_attempt :
    (Dispatch regFailing Ctx.background "t0"
        (Json.obj [("task", Json.str "t"), ("attempt", Json.num (-1))])).fst =
      { success := false, retry := true, retryAttempt := 0, errmsg := some "boom" }
    ∧ handleDelivery { success := false, retry := true, retryAttempt := 0, errmsg := some "boom" }
        { exchange := "celery", routingKey := "logger"
        , body := Json.obj [("task", Json.str "t"), ("attempt", Json.num (-1))] }
        true true = none :=
  ⟨rfl, rfl⟩

/-- C2 amended: every delivery completed by a pool worker gets exactly one
broker acknowledgement — ack on success and after a successful retry
republish, nack without requeue on terminal failure or a failed retry
republish — and the single exception is a retry verdict with
retry_attempt ≤ 0 on a parseable body, where the backoff computation
panics before any broker operation and zero acknowledgements occur. -/
theorem worker_ack_exactly_once_unless_panic (res : DispatchResult) (d : Delivery)
    (chanAvailable publishOk : Bool) :
    (∀ acts, handleDelivery res d chanAvailable publishOk = some acts →
        ((acts.filter BrokerAction.isAckAction).length = 1
        ∧ (res.success = true → acts = [BrokerAction.ack])
        ∧ (res.success = false → res.retry = false → acts = [BrokerAction.nackNoRequeue])
        ∧ (res.success = false → res.retry = true →
            acts.getLast? =
              if (unmarshalTaskPayload d.body).isOk ∧ chanAvailable = true ∧ publishOk = true
              then some BrokerAction.ack else some BrokerAction.nackNoRequeue)))
    ∧ (handleDelivery res d chanAvailable publishOk = none ↔
        (res.success = false ∧ res.retry = true ∧ res.retryAttempt ≤ 0
         ∧ (unmarshalTaskPayload d.body).isOk = true)) := by
  unfold handleDelivery
  rcases res with ⟨success, retry, retryAttempt, errmsg⟩
  cases success <;> cases retry <;> cases chanAvailable <;> cases publishOk <;>
    cases hu : unmarshalTaskPayload d.body <;>
      rcases hb : retryBackoffMs retryAttempt with _ | b
  all_goals
    first
      | (have hle : retryAttempt ≤ 0 := (retryBackoffMs_eq_none_iff retryAttempt).mp hb
         simp_all [BrokerAction.isAckAction, List.filter, Except.isOk, Except.toBool])
      | (have hgt : ¬ retryAttempt ≤ 0 := by
           intro hle
           rw [(retryBackoffMs_eq_none_iff retryAttempt).mpr hle] at hb
           exact Option.noConfusion hb
         simp_all [BrokerAction.isAckAction, List.filter, Except.isOk, Except.toBool])

/-- Witness for C2 amended: a retry verdict with retry_attempt = 1 on a
parseable body with the channel available completes with exactly one
acknowledgement; the same verdict with retry_attempt = 0 panics with zero
broker operations. -/
theorem worker_ack_exactly_once_unless_panic_witness :
    (∃ acts, handleDelivery { success := false, retry := true, retryAttempt := 1, errmsg := some "boom" }
        { exchange := "celery", routingKey := "logger", body := Json.obj [("task", Json.str "t")] }
        true true = some acts
      ∧ (acts.filter BrokerAction.isAckAction).length = 1)
    ∧ handleDelivery { success := false, retry := true, retryAttempt := 0, errmsg := some "boom" }
        { exchange := "celery", routingKey := "logger", body := Json.obj [("task", Json.str "t")] }
        true true = none := by
  have h1 := worker_ack_exactly_once_unless_panic
      { success := false, retry := true, retryAttempt := 1, errmsg := some "boom" }
      { exchange := "celery", routingKey := "logger", body := Json.obj [("task", Json.str "t")] }
      true true
  have h0 := worker_ack_exactly_once_unless_panic
      { success := false, retry := true, retryAttempt := 0, errmsg := some "boom" }
      { exchange := "celery", routingKey := "logger", body := Json.obj [("task", Json.str "t")] }
      true true
  refine ⟨?_, h0.2.mpr ⟨rfl, rfl, by decide, rfl⟩⟩
  refine ⟨_, rfl, (h1.1 _ rfl).1⟩

/-- Counterexample for C4: at retry_attempt 61 the Go int64 computation
1000 * (1 << 60) wraps to -2^63, so the published x-delay is not the
mathematical 1000 * 2^60 the claim asserts for every n ≥ 1. -/
theorem retry_xdelay_wraps_at_61 :
    retryBackoffMs 61 = some (-(2 ^ 63))
    ∧ handleDelivery { success := false, retry := true, retryAttempt := 61, errmsg := some "boom" }
        { exchange := "celery", routingKey := "logger", body := Json.obj [("task", Json.str "t")] }
        true true =
      some [ BrokerAction.publishRetry "celery" "logger"
               { TaskPayload.zero with task := "t", attempt := 61 } (-(2 ^ 63))
           , BrokerAction.ack ]
    ∧ (-(2 ^ 63) : Int) ≠ 1000 * 2 ^ 60 := by
  refine ⟨by decide, rfl, by decide⟩

/-- C4 amended: for every retry verdict with retry_attempt = n in the
non-overflowing range 1 ≤ n ≤ 54, on a parseable delivery with the shared
channel available, the worker republishes to the exchange and routing key
of the original delivery the envelope equal to the original except
attempt = n, carrying header x-delay = 1000 * 2^(n-1) milliseconds; the
first retry carries 1000 and the second 2000. (For n ≥ 55 the 64-bit
computation wraps, and for n ≤ 0 it panics.) -/
theorem retry_republish_shape_in_range (res : DispatchResult) (d : Delivery)
    (env : TaskPayload) (publishOk : Bool) (n : Int)
    (hs : res.success = false) (hr : res.retry = true)
    (hn : res.retryAttempt = n) (hn1 : 1 ≤ n) (hn54 : n ≤ 54)
    (hu : unmarshalTaskPayload d.body = Except.ok env) :
    (∃ acts, handleDelivery res d true publishOk = some acts
      ∧ acts.head? = some (BrokerAction.publishRetry d.exchange d.routingKey
          { env with attempt := n } (1000 * 2 ^ (n - 1).toNat)))
    ∧ retryBackoffMs 1 = some 1000 ∧ retryBackoffMs 2 = some 2000 := by
  refine ⟨?_, by decide, by decide⟩
  unfold handleDelivery
  rw [hs, hr, hu, hn]
  cases publishOk <;> simp [retryBackoffMs_in_range n hn1 hn54]

/-- Witness for C4 amended: a retry verdict with retry_attempt = 1
republishes the re-encoded envelope with attempt = 1 and x-delay 1000 to
the original exchange and routing key, then acks. -/
theorem retry_republish_shape_in_range_witness :
    ∃ acts, handleDelivery { success := false, retry := true, retryAttempt := 1, errmsg := some "boom" }
        { exchange := "celery", routingKey := "logger", body := Json.obj [("task", Json.str "t")] }
        true true = some acts
      ∧ acts.head? = some (BrokerAction.publishRetry "celery" "logger"
          { TaskPayload.zero with task := "t", attempt := 1 } 1000) := by
  have h := retry_republish_shape_in_range
      { success := false, retry := true, retryAttempt := 1, errmsg := some "boom" }
      { exchange := "celery", routingKey := "logger", body := Json.obj [("task", Json.str "t")] }
      { TaskPayload.zero with task := "t" } true 1 rfl rfl rfl (by decide) (by decide) rfl
  simpa using h.1

/-- Counterexample for C3: the Celery-style wrapped body — whose first
element is a valid native envelope for a registered, succeeding handler —
is NOT decoded by Dispatch: the envelope parse fails and the delivery is
classified as a poison message (terminal failure, no retry), while the
inner envelope dispatched directly succeeds. -/
theorem celery_wrapped_body_is_poison :
    (unmarshalTaskPayload celeryWrappedBody).isOk = false
    ∧ (Dispatch regSucceeding Ctx.background "t1" celeryWrappedBody).fst.success = false
    ∧ (Dispatch regSucceeding Ctx.background "t1" celeryWrappedBody).fst.retry = false
    ∧ (Dispatch regSucceeding Ctx.background "t1" innerEnvelopeBody).fst.success = true :=
  ⟨rfl, rfl, rfl, rfl⟩

/-- C3 amended: a body that is the native object directly is decoded and
processed; a body that is a JSON array — including the Celery-style
three-element sequence — fails envelope parsing and is classified as a
poison message: terminal failure with no retry and no notifications. -/
theorem dispatch_inbound_shapes (reg : Registry) (ctx : Ctx) (now : String) :
    (∀ xs : List Json,
      Dispatch reg ctx now (Json.arr xs) =
        ({ success := false, retry := false, retryAttempt := 0
         , errmsg := some "json: cannot unmarshal value into Go value of type tasks.TaskPayload" }, []))
    ∧ (∀ (f : List (String × Json)) (env : TaskPayload),
        unmarshalTaskPayload (Json.obj f) = Except.ok env →
        Dispatch reg ctx now (Json.obj f) = dispatchDecoded reg ctx now env) := by
  constructor
  · intro xs
    rfl
  · intro f env h
    unfold Dispatch
    rw [h]

/-- Witness for C3 amended: the wrapped body is poison; the direct body is
processed by its registered handler. -/
theorem dispatch_inbound_shapes_witness :
    Dispatch regSucceeding Ctx.background "t1"
        (Json.arr [innerEnvelopeBody, Json.obj [], Json.obj []]) =
      ({ success := false, retry := false, retryAttempt := 0
       , errmsg := some "json: cannot unmarshal value into Go value of type tasks.TaskPayload" }, [])
    ∧ Dispatch regSucceeding Ctx.background "t1" innerEnvelopeBody =
      dispatchDecoded regSucceeding Ctx.background "t1"
        { TaskPayload.zero with task := "t", id := "42" } := by
  have h := dispatch_inbound_shapes regSucceeding Ctx.background "t1"
  exact ⟨h.1 [innerEnvelopeBody, Json.obj [], Json.obj []],
         h.2 [("task", Json.str "t"), ("id", Json.str "42")]
           { TaskPayload.zero with task := "t", id := "42" } rfl⟩

/-- C5: for every non-empty task name, argument list, and non-empty queue,
SendCeleryTask publishes to exchange "celery" with routing key = queue a
persistent JSON message, content-encoding utf-8, whose body is
[args, {}, {callbacks:null, errbacks:null, chain:null, chord:null}] (nil
args become []), whose headers carry lang="py", task, and id and root_id
equal to the returned task id, and whose correlation id equals that id. -/
theorem send_celery_task_message (taskID t q : String) (a : Option (List Json))
    (declareOk publishOk : Bool)
    (ht : t ≠ "") (hq : q ≠ "") (hd : declareOk = true) (hp : publishOk = true) :
    SendCeleryTask taskID declareOk publishOk t a q =
      ((taskID, none)
      , [ BrokerOp.queueDeclare q true false false
        , BrokerOp.publish "celery" q
            { contentType := "application/json"
            , contentEncoding := "utf-8"
            , deliveryMode := 2
            , body := celeryBody (a.getD [])
            , headers :=
                [ ("lang", Json.str "py"), ("task", Json.str t)
                , ("id", Json.str taskID), ("root_id", Json.str taskID) ]
            , correlationId := taskID } ]) := by
  subst hd hp
  simp [SendCeleryTask, ht, hq]

/-- Witness for C5: a concrete Celery publish for task "analyze". -/
theorem send_celery_task_message_witness :
    SendCeleryTask "uuid-1" true true "analyze" (some [Json.str "v1", Json.str "v2"]) "celery" =
      (("uuid-1", none)
      , [ BrokerOp.queueDeclare "celery" true false false
        , BrokerOp.publish "celery" "celery"
            { contentType := "application/json"
            , contentEncoding := "utf-8"
            , deliveryMode := 2
            , body := celeryBody [Json.str "v1", Json.str "v2"]
            , headers :=
                [ ("lang", Json.str "py"), ("task", Json.str "analyze")
                , ("id", Json.str "uuid-1"), ("root_id", Json.str "uuid-1") ]
            , correlationId := "uuid-1" } ]) := by
  exact send_celery_task_message "uuid-1" "analyze" "celery"
    (some [Json.str "v1", Json.str "v2"]) true true
    (by decide) (by decide) rfl rfl

/-- The context every notification sink call runs on. -/
theorem notifySinkCalls_ctx (tctx : Ctx) (env : TaskPayload) (status : String)
    (err : Option String) (now : String) :
    ∀ c ∈ notifySinkCalls tctx env status err now,
      c.ctxOf = Ctx.withTimeout Ctx.background 10 := by
  intro c hc
  unfold notifySinkCalls at hc
  cases henv : env.notify with
  | none => rw [henv] at hc; simp at hc
  | some cfg =>
      rw [henv] at hc
      simp only [List.mem_append] at hc
      rcases hc with hc | hc
      · cases hs : cfg.sockudo with
        | none => rw [hs] at hc; simp at hc
        | some s =>
            rw [hs] at hc
            simp only [List.mem_singleton] at hc
            subst hc
            rfl
      · cases hw : cfg.webhook with
        | none => rw [hw] at hc; simp at hc
        | some w =>
            rw [hw] at hc
            simp only [List.mem_singleton] at hc
            subst hc
            rfl

/-- C6: every completion-notification sink call runs on a context derived
from a fresh background root with a 10-second deadline — not from the task
or parent context — so cancelling any cancellable parent context never
suppresses it; and sink outcomes never change the dispatch verdict. -/
theorem notify_detached_context (tctx : Ctx) (env : TaskPayload)
    (status : String) (err : Option String) (now : String) (c : SinkCall)
    (hc : c ∈ notifySinkCalls tctx env status err now)
    (reg : Registry) (ctx : Ctx) (body : Json)
    (sinkErr1 sinkErr2 : SinkCall → Option String) (p : Ctx) (i : Nat) :
    c.ctxOf = Ctx.withTimeout Ctx.background 10
    ∧ ¬ cancelledBy c.ctxOf (Ctx.withCancel p i)
    ∧ (dispatchRun reg ctx now body sinkErr1).fst = (dispatchRun reg ctx now body sinkErr2).fst := by
  have hctx := notifySinkCalls_ctx tctx env status err now c hc
  refine ⟨hctx, ?_, rfl⟩
  rw [hctx]
  simp [cancelledBy, Ctx.chain]

/-- Witness for C6: the concrete broadcast sink call runs on the detached
10-second background context, survives cancellation of a worker shutdown
context, and the verdict is unchanged between a failing and a silent sink. -/
theorem notify_detached_context_witness :
    callW.ctxOf = Ctx.withTimeout Ctx.background 10
    ∧ ¬ cancelledBy callW.ctxOf (Ctx.withCancel Ctx.background 0)
    ∧ (dispatchRun regSucceeding Ctx.background "t1" innerEnvelopeBody
          (fun _ => some "sink down")).fst =
      (dispatchRun regSucceeding Ctx.background "t1" innerEnvelopeBody
          (fun _ => none)).fst := by
  have hmem : callW ∈ notifySinkCalls Ctx.background envNotifyW "success" none "t1" := by
    show callW ∈ [callW]
    exact List.Mem.head _
  exact notify_detached_context Ctx.background envNotifyW "success" none "t1" callW
    hmem regSucceeding Ctx.background innerEnvelopeBody
    (fun _ => some "sink down") (fun _ => none) Ctx.background 0

/-- Counterexample for C7: a completed POST with status 150 (< 200) is NOT
an error — Send returns nil — contradicting the claim that any status
< 200 is an error. -/
theorem webhook_send_low_status_no_error :
    OAuthClient.Send (Except.ok "tok") (Except.ok 150) = none ∧ (150 : Int) < 200 :=
  ⟨rfl, by decide⟩

/-- C7 amended: for every Send call in which a bearer token is obtained and
the POST completes with status code s, Send returns an error if and only if
s ≥ 400 (statuses below 400, including those below 200, are accepted). -/
theorem webhook_send_error_iff_status_ge_400 (token : String) (s : Int) :
    (OAuthClient.Send (Except.ok token) (Except.ok s)).isSome = true ↔ s ≥ 400 := by
  unfold OAuthClient.Send
  dsimp only
  split
  · rename_i h
    simp [h]
  · rename_i h
    simp [h]

/-- C8: SendCeleryTask and SendGoTask with an empty task name return an
argument error and an empty id without any broker operation; with a
non-empty task name and an empty queue, the queue defaults to "celery". -/
theorem publisher_validation_and_default :
    (∀ (taskID : String) (declareOk publishOk : Bool) (args : Option (List Json)) (q : String),
      SendCeleryTask taskID declareOk publishOk "" args q = (("", some "task name is required"), []))
    ∧ (∀ (taskID now : String) (declareOk publishOk : Bool)
        (p : Option (List (String × Json))) (q : String) (o : Option TaskOptions),
      SendGoTask taskID now declareOk publishOk "" p q o = (("", some "task name is required"), []))
    ∧ (∀ (taskID : String) (declareOk publishOk : Bool) (t : String) (args : Option (List Json)),
        t ≠ "" →
        SendCeleryTask taskID declareOk publishOk t args "" =
          SendCeleryTask taskID declareOk publishOk t args "celery")
    ∧ (∀ (taskID now : String) (declareOk publishOk : Bool) (t : String)
        (p : Option (List (String × Json))) (o : Option TaskOptions),
        t ≠ "" →
        SendGoTask taskID now declareOk publishOk t p "" o =
          SendGoTask taskID now declareOk publishOk t p "celery" o) := by
  refine ⟨fun _ _ _ _ _ => rfl, fun _ _ _ _ _ _ _ => rfl, ?_, ?_⟩
  · intro taskID declareOk publishOk t args ht
    simp [SendCeleryTask, ht]
  · intro taskID now declareOk publishOk t p o ht
    simp [SendGoTask, ht]

/-- Witness for C8: concrete empty-name rejections and the empty-queue
default for task "a". -/
theorem publisher_validation_and_default_witness :
    SendCeleryTask "id1" true true "" none "q" = (("", some "task name is required"), [])
    ∧ SendGoTask "id1" "t0" true true "" none "q" none = (("", some "task name is required"), [])
    ∧ SendCeleryTask "id1" true true "a" none "" = SendCeleryTask "id1" true true "a" none "celery"
    ∧ SendGoTask "id1" "t0" true true "a" none "" none =
        SendGoTask "id1" "t0" true true "a" none "celery" none := by
  exact ⟨publisher_validation_and_default.1 "id1" true true none "q",
         publisher_validation_and_default.2.1 "id1" "t0" true true none "q" none,
         publisher_validation_and_default.2.2.1 "id1" true true "a" none (by decide),
         publisher_validation_and_default.2.2.2 "id1" "t0" true true "a" none none (by decide)⟩

/-- C9: when the persistence collaborator reports not connected (or its
handle is nil), the logger handler performs no insert and returns success,
and a success verdict makes the worker ack the delivery. -/
theorem logger_skip_when_db_down (deps : LoggerDeps)
    (hdb : deps.dbConnected = false ∨ deps.dbPresent = false) :
    (∀ p, processLoggerPayload deps p = (none, []))
    ∧ (∀ (ctx : Ctx) (args : Json) (p : LoggerTaskPayload),
        unmarshalLoggerPayload args = Except.ok p → loggerHandler deps ctx args = none)
    ∧ (∀ (d : Delivery) (chanAvailable publishOk : Bool),
        handleDelivery { success := true, retry := false, retryAttempt := 0, errmsg := none }
          d chanAvailable publishOk = some [BrokerAction.ack]) := by
  have hskip : ∀ p, processLoggerPayload deps p = (none, []) := by
    intro p
    unfold processLoggerPayload
    rcases hdb with h | h <;> simp [h]
  refine ⟨hskip, ?_, ?_⟩
  · intro ctx args p hp
    unfold loggerHandler
    rw [hp]
    dsimp only
    rw [hskip p]
  · intro d chanAvailable publishOk
    rfl

/-- Witness for C9: with the database disconnected, a concrete logger
payload is skipped (no insert, nil error) and the success verdict acks. -/
theorem logger_skip_when_db_down_witness :
    processLoggerPayload ⟨false, true, none⟩
        { message := "hi", channel := "t", level := Json.str "200", levelName := "INFO"
        , datetime := "2023-01-01 12:00:00", context := Json.arr [], extra := Json.arr [] } =
      (none, [])
    ∧ loggerHandler ⟨false, true, none⟩ Ctx.background Json.null = none
    ∧ handleDelivery { success := true, retry := false, retryAttempt := 0, errmsg := none }
        { exchange := "celery", routingKey := "logger", body := Json.null } true true =
        some [BrokerAction.ack] := by
  have h := logger_skip_when_db_down ⟨false, true, none⟩ (Or.inl rfl)
  exact ⟨h.1 _,
         h.2.1 Ctx.background Json.null
           { message := "", channel := "", level := Json.null, levelName := ""
           , datetime := "", context := Json.null, extra := Json.null } rfl,
         h.2.2 _ true true⟩

/-- C10: normalizeToMap is total and never fails: an object is kept as-is,
while null, any array (empty or not), and any other JSON type (string,
number, boolean) all normalize to an empty mapping; processLoggerPayload
applies it to the context and extra fields of the payload. -/
theorem normalize_to_map_total :
    (∀ m, normalizeToMap (Json.obj m) = m)
    ∧ normalizeToMap Json.null = []
    ∧ (∀ xs, normalizeToMap (Json.arr xs) = [])
    ∧ (∀ s, normalizeToMap (Json.str s) = [])
    ∧ (∀ n, normalizeToMap (Json.num n) = [])
    ∧ (∀ b, normalizeToMap (Json.bool b) = [])
    ∧ (∀ p, (buildServerLog p).context = normalizeToMap p.context
          ∧ (buildServerLog p).extra = normalizeToMap p.extra) :=
  ⟨fun _ => rfl, rfl, fun _ => rfl, fun _ => rfl, fun _ => rfl, fun _ => rfl,
   fun _ => ⟨rfl, rfl⟩⟩
